import Mathlib

/-!
Verification of `src/document_analysis.py` (streamlit-advisor-tool).

The file shallowly embeds the program: bytes are `List Nat` (each < 256),
Python exceptions are `Except String`, the remote chat-completion service and
the raster decoder (PIL) are oracle parameters, and the streamlit UI surface
is a list of emitted `UIEvent`s.
-/

namespace DocumentAnalysis

/-! ### Base64 (Python `base64.b64encode` / `base64.b64decode`) -/

/-- The standard base64 alphabet used by `base64.b64encode`. -/
def b64Alphabet : List Char :=
  "ABCDEFGHIJKLMNOPQRSTUVWXYZabcdefghijklmnopqrstuvwxyz0123456789+/".toList

/-- Character for a 6-bit value. -/
def b64Char (n : Nat) : Char := b64Alphabet.getD n 'A'

/-- Index search in the alphabet (decoder direction). -/
def findIdx : List Char → Char → Nat → Option Nat
  | [], _, _ => none
  | a :: rest, c, i => if a = c then some i else findIdx rest c (i + 1)

/-- 6-bit value of a base64 character, `none` for characters outside the
alphabet (including the padding character). -/
def b64Index (c : Char) : Option Nat := findIdx b64Alphabet c 0

/-- Encoder: three input bytes become four output characters; a final
partial group of one or two bytes is padded with one or two `=`. -/
def b64EncodeChunks : List Nat → List Char
  | a :: b :: c :: rest =>
      b64Char (a / 4) :: b64Char (a % 4 * 16 + b / 16) ::
      b64Char (b % 16 * 4 + c / 64) :: b64Char (c % 64) :: b64EncodeChunks rest
  | [a, b] => [b64Char (a / 4), b64Char (a % 4 * 16 + b / 16), b64Char (b % 16 * 4), '=']
  | [a] => [b64Char (a / 4), b64Char (a % 4 * 16), '=', '=']
  | [] => []

/-- `base64.b64encode(bs).decode("utf-8")`. -/
def b64encode (bs : List Nat) : String := String.mk (b64EncodeChunks bs)

/-- Decoder: four characters become three bytes; a trailing group with one
or two padding characters yields two bytes or one byte. -/
def b64DecodeChunks : List Char → Option (List Nat)
  | [] => some []
  | c0 :: c1 :: c2 :: c3 :: rest =>
      (b64Index c0).bind fun i0 =>
      (b64Index c1).bind fun i1 =>
      if c2 = '=' then
        if c3 = '=' ∧ rest = [] then some [i0 * 4 + i1 / 16] else none
      else
        (b64Index c2).bind fun i2 =>
        if c3 = '=' then
          if rest = [] then some [i0 * 4 + i1 / 16, i1 % 16 * 16 + i2 / 4] else none
        else
          (b64Index c3).bind fun i3 =>
          (b64DecodeChunks rest).map fun tl =>
            (i0 * 4 + i1 / 16) :: (i1 % 16 * 16 + i2 / 4) :: (i2 % 4 * 64 + i3) :: tl
  | _ => none

/-- `base64.b64decode(s)`. -/
def b64decode (s : String) : Option (List Nat) := b64DecodeChunks s.toList

theorem b64Index_b64Char : ∀ n : Nat, n < 64 → b64Index (b64Char n) = some n := by
  decide

theorem b64Char_ne_pad : ∀ n : Nat, n < 64 → b64Char n ≠ '=' := by
  decide

theorem b64DecodeChunks_encodeChunks (bs : List Nat) (h : ∀ b ∈ bs, b < 256) :
    b64DecodeChunks (b64EncodeChunks bs) = some bs := by
  induction bs using b64EncodeChunks.induct with
  | case1 a b c rest ih =>
      have ha : a < 256 := h a (by simp)
      have hb : b < 256 := h b (by simp)
      have hc : c < 256 := h c (by simp)
      have h0 : a / 4 < 64 := by omega
      have h1 : a % 4 * 16 + b / 16 < 64 := by omega
      have h2 : b % 16 * 4 + c / 64 < 64 := by omega
      have h3 : c % 64 < 64 := by omega
      rw [b64EncodeChunks]
      rw [b64DecodeChunks, b64Index_b64Char _ h0, b64Index_b64Char _ h1]
      simp only [Option.some_bind]
      rw [if_neg (b64Char_ne_pad _ h2), b64Index_b64Char _ h2]
      simp only [Option.some_bind]
      rw [if_neg (b64Char_ne_pad _ h3), b64Index_b64Char _ h3]
      simp only [Option.some_bind]
      rw [ih (fun x hx => h x (by simp [hx]))]
      simp only [Option.map_some']
      congr 1
      congr 1
      · omega
      congr 1
      · omega
      congr 1
      omega
  | case2 a b =>
      have ha : a < 256 := h a (by simp)
      have hb : b < 256 := h b (by simp)
      have h0 : a / 4 < 64 := by omega
      have h1 : a % 4 * 16 + b / 16 < 64 := by omega
      have h2 : b % 16 * 4 < 64 := by omega
      rw [b64EncodeChunks]
      rw [b64DecodeChunks, b64Index_b64Char _ h0, b64Index_b64Char _ h1]
      simp only [Option.some_bind]
      rw [if_neg (b64Char_ne_pad _ h2), b64Index_b64Char _ h2]
      simp only [Option.some_bind, if_true]
      congr 1
      congr 1
      · omega
      congr 1
      omega
  | case3 a =>
      have ha : a < 256 := h a (by simp)
      have h0 : a / 4 < 64 := by omega
      have h1 : a % 4 * 16 < 64 := by omega
      rw [b64EncodeChunks]
      rw [b64DecodeChunks, b64Index_b64Char _ h0, b64Index_b64Char _ h1]
      simp only [Option.some_bind, if_true, and_self]
      congr 1
      congr 1
      omega
  | case4 => rfl

theorem b64decode_b64encode (bs : List Nat) (h : ∀ b ∈ bs, b < 256) :
    b64decode (b64encode bs) = some bs :=
  b64DecodeChunks_encodeChunks bs h

/-! ### Analysis Client (`analyze_lease_document`) -/

/-- The fixed instructional prompt (the `prompt` local of
`analyze_lease_document`, lines 31-55). -/
def prompt : String :=
  "You are an expert paralegal specializing in Massachusetts landlord-tenant law.
Your task is to analyze the provided lease agreement and identify any clauses
that are illegal or unenforceable under Massachusetts General Laws.

Please carefully review the document and list any problematic clauses.
For each illegal clause you find, provide the following:
1.  **Clause Identification**: Quote the exact illegal phrase or sentence from the lease.
2.  **Explanation**: Clearly explain in simple, non-legal language why the clause is illegal in Massachusetts.
3.  **Legal Reference**: Cite the specific Massachusetts General Law (MGL) chapter and section that makes the clause illegal.

Common illegal clauses to look for in Massachusetts include, but are not limited to:
- Requiring a tenant to pay for all repairs, regardless of fault.
- Waiving the tenant's right to a jury trial.
- Requiring the tenant to pay for utility costs for common areas without a separate meter.
- Imposing a penalty for late rent that exceeds what is allowed by law (MGL c. 186, s. 15B).
- Allowing the landlord to enter the premises without reasonable notice.
- Requiring the tenant to pay rent in advance for more than the first month and a security deposit.

If you do not find any illegal clauses, please state that \"Based on this analysis, no illegal clauses were identified in the document.\"

Present your findings in a clear, organized format using markdown."

/-- Python `str.startswith`: a prefix test on the character sequence. -/
def startswith (s p : String) : Bool := p.toList.isPrefixOf s.toList

/-- The guidance string returned for a non-image content type (line 66). -/
def guidance : String :=
  "This tool currently only supports image files (JPEG, PNG). Please upload an image of your lease."

/-- One request to `client.chat.completions.create` (lines 71-88): the model
name, the text part and the image-URL part of the single user message, and
the `max_tokens` argument. -/
structure ChatRequest where
  model : String
  text : String
  imageUrl : String
  max_tokens : Nat
deriving DecidableEq

/-- Outcome of one call to `analyze_lease_document`: the returned value, the
remote requests issued during the call, and the `st.error` messages emitted. -/
structure AnalyzeOutcome where
  result : Option String
  requests : List ChatRequest
  errors : List String
deriving DecidableEq

/-- The single request built at lines 69-88: base64-encode the bytes (line
69) and inline them as a data URI next to the fixed prompt, with
`max_tokens = 2000` (line 87). -/
def buildRequest (mt : String) (file_bytes : List Nat) : ChatRequest :=
  let base64_image := b64encode file_bytes
  { model := "gpt-5-nano", text := prompt,
    imageUrl := "data:" ++ mt ++ ";base64," ++ base64_image,
    max_tokens := 2000 }

/-- The body of the `try` block of `analyze_lease_document` (lines 57-89).
`remote` is the external `client.chat.completions.create` call, with
`Except.error` modelling a raised exception. `mime_type = none` models a
`mime_type` of `None`, on which `mime_type.startswith` raises
`AttributeError` inside the `try` block. Returns the requests issued
together with the block's outcome; `Except.error` is an exception leaving
the block. -/
def analyzeTry (remote : ChatRequest → Except String String)
    (file_bytes : List Nat) (mime_type : Option String) :
    List ChatRequest × Except String (Option String) :=
  match mime_type with
  | none =>
      ([], Except.error "AttributeError: NoneType object has no attribute startswith")
  | some mt =>
      if ! startswith mt "image/" then
        ([], Except.ok (some guidance))
      else
        let req := buildRequest mt file_bytes
        match remote req with
        | Except.ok content => ([req], Except.ok (some content))
        | Except.error e => ([req], Except.error e)

/-- `analyze_lease_document` (lines 23-92): the `try` body plus the
`except Exception` handler of lines 90-92, which emits `st.error` and
returns `None`. -/
def analyze_lease_document (remote : ChatRequest → Except String String)
    (file_bytes : List Nat) (mime_type : Option String) : AnalyzeOutcome :=
  match analyzeTry remote file_bytes mime_type with
  | (reqs, Except.ok res) => { result := res, requests := reqs, errors := [] }
  | (reqs, Except.error e) =>
      { result := none, requests := reqs,
        errors := ["An error occurred during analysis: " ++ e] }

/-! ### Input Normalizer (`process_uploaded_file`) -/

/-- An uploaded file object (streamlit `UploadedFile`): a byte buffer with a
declared MIME type and a current read position. -/
structure UploadedFile where
  data : List Nat
  type : Option String
  pos : Nat

/-- `uploaded_file.getvalue()`: all bytes, independent of the position. -/
def getvalue (f : UploadedFile) : List Nat := f.data

/-- `uploaded_file.seek(n)`. -/
def seek (f : UploadedFile) (n : Nat) : UploadedFile := { f with pos := n }

/-- The bytes a reader starting at the current position sees. -/
def readRest (f : UploadedFile) : List Nat := f.data.drop f.pos

/-- `process_uploaded_file` (lines 94-110). `decodeImage` is the external
`PIL.Image.open`; `none` models the decode exception swallowed by the
`try`/`except: pass` of lines 102-108. -/
def process_uploaded_file {Img : Type} (decodeImage : List Nat → Option Img)
    (uploaded_file : UploadedFile) : List Nat × Option String × Option Img :=
  let file_bytes := getvalue uploaded_file
  let mime_type := uploaded_file.type
  let f1 := seek uploaded_file 0
  let preview_image := decodeImage (readRest f1)
  (file_bytes, mime_type, preview_image)

/-! ### Startup and `main` -/

/-- UI calls observable at the caller-facing surface. -/
inductive UIEvent
  | image (caption : String)
  | success (msg : String)
  | markdown (body : String)
  | error (msg : String)
deriving DecidableEq

/-- Result of the module-level startup code. -/
inductive StartupResult
  | halted (messages : List String)
  | running (apiKey : String)
deriving DecidableEq

/-- Module-level startup (lines 13-20): `os.getenv` then the falsiness check
`if not OPENAI_API_KEY` (`None` and the empty string are falsy), `st.error`
and `st.stop`. -/
def startup (env : String → Option String) : StartupResult :=
  match env "OPENAI_API_KEY" with
  | none =>
      StartupResult.halted
        ["OpenAI API key not found. Please set the 'OPENAI_API_KEY' environment variable."]
  | some k =>
      if k = "" then
        StartupResult.halted
          ["OpenAI API key not found. Please set the 'OPENAI_API_KEY' environment variable."]
      else StartupResult.running k

/-- What one run of the page shows and sends. -/
structure MainOutcome where
  events : List UIEvent
  requests : List ChatRequest
deriving DecidableEq

/-- Lines 144-146 of `main`: `if analysis_result:` — `None` and the empty
string are falsy in Python, every other string truthy. -/
def render_result (analysis_result : Option String) : List UIEvent :=
  match analysis_result with
  | some s =>
      if s = "" then []
      else [UIEvent.success "Analysis Complete", UIEvent.markdown s]
  | none => []

/-- Lines 136-148 of `main`: the handling of a non-`None` upload. The
preview gate of line 139 decides between analysis and the line-148 error. -/
def handle_uploaded_file {Img : Type} (decodeImage : List Nat → Option Img)
    (remote : ChatRequest → Except String String)
    (uploaded_file : UploadedFile) : MainOutcome :=
  let (file_bytes, mime_type, preview_image) :=
    process_uploaded_file decodeImage uploaded_file
  match preview_image with
  | some _ =>
      let out := analyze_lease_document remote file_bytes mime_type
      { events := UIEvent.image "Image to be Analyzed" ::
          (out.errors.map UIEvent.error ++ render_result out.result),
        requests := out.requests }
  | none =>
      { events :=
          [UIEvent.error "Could not process the uploaded file. Please ensure it is a valid image."],
        requests := [] }

/-- The program as a whole: module-level startup (lines 11-20) then `main`'s
upload handling. Static page chrome (title, write-ups, disclaimer, the
input-method radio) carries no state and is not modelled; `uploaded_file =
none` is the line-136 `is not None` guard failing. -/
def runProgram {Img : Type} (env : String → Option String)
    (decodeImage : List Nat → Option Img)
    (remote : ChatRequest → Except String String)
    (uploaded_file : Option UploadedFile) : MainOutcome :=
  match startup env with
  | StartupResult.halted msgs => { events := msgs.map UIEvent.error, requests := [] }
  | StartupResult.running _ =>
      match uploaded_file with
      | none => { events := [], requests := [] }
      | some f => handle_uploaded_file decodeImage remote f

/-! ### Helper lemmas -/

theorem analyzeTry_image (remote : ChatRequest → Except String String)
    (file_bytes : List Nat) (mt : String) (h : startswith mt "image/" = true) :
    analyzeTry remote file_bytes (some mt) =
      ([buildRequest mt file_bytes],
        match remote (buildRequest mt file_bytes) with
        | Except.ok content => Except.ok (some content)
        | Except.error e => Except.error e) := by
  simp only [analyzeTry]
  rw [h]
  simp only [Bool.not_true, Bool.false_eq_true, if_false]
  cases remote (buildRequest mt file_bytes) <;> rfl

theorem analyzeTry_non_image (remote : ChatRequest → Except String String)
    (file_bytes : List Nat) (mt : String) (h : startswith mt "image/" = false) :
    analyzeTry remote file_bytes (some mt) = ([], Except.ok (some guidance)) := by
  simp only [analyzeTry]
  rw [h]
  simp

theorem process_uploaded_file_eq {Img : Type} (decodeImage : List Nat → Option Img)
    (f : UploadedFile) :
    process_uploaded_file decodeImage f = (f.data, f.type, decodeImage f.data) := rfl

/-! ### Claim theorems -/

/-- Claim C1, counterexample: a corrupted PNG (bytes that fail raster
decoding, declared content-type "image/png") does NOT lead to a remote
call: the flow issues zero requests and shows the line-148 error, so the
absence of a preview image does block the analysis attempt. -/
theorem c1_counterexample :
    (handle_uploaded_file (fun _ => (none : Option Unit))
        (fun _ => Except.ok "Based on this analysis, no illegal clauses were identified in the document.")
        { data := [0, 1, 2], type := some "image/png", pos := 0 }).requests = [] ∧
    (handle_uploaded_file (fun _ => (none : Option Unit))
        (fun _ => Except.ok "Based on this analysis, no illegal clauses were identified in the document.")
        { data := [0, 1, 2], type := some "image/png", pos := 0 }).events =
      [UIEvent.error "Could not process the uploaded file. Please ensure it is a valid image."] :=
  ⟨rfl, rfl⟩

/-- Claim C1, amended: for an upload whose bytes fail raster decoding, even
with a declared content-type starting "image/", the end-to-end flow does
not invoke the Analysis Client: `main` gates analysis on a successful
preview decode (line 139) and shows the line-148 error, issuing zero
remote requests; the content-type gate inside `analyze_lease_document` is
only reached for uploads whose preview decodes. -/
theorem c1_decode_failure_blocks_analysis {Img : Type}
    (decodeImage : List Nat → Option Img)
    (remote : ChatRequest → Except String String) (f : UploadedFile) (mt : String)
    (htype : f.type = some mt) (himg : startswith mt "image/" = true)
    (hdec : decodeImage f.data = none) :
    handle_uploaded_file decodeImage remote f =
      { events :=
          [UIEvent.error "Could not process the uploaded file. Please ensure it is a valid image."],
        requests := [] } := by
  unfold handle_uploaded_file
  rw [process_uploaded_file_eq, hdec]

/-- Claim C1, witness for the amended statement. -/
theorem c1_decode_failure_blocks_analysis_witness :
    handle_uploaded_file (fun _ => (none : Option Unit)) (fun _ => Except.ok "r")
        { data := [1, 2, 3], type := some "image/png", pos := 0 } =
      { events :=
          [UIEvent.error "Could not process the uploaded file. Please ensure it is a valid image."],
        requests := [] } :=
  c1_decode_failure_blocks_analysis _ _ _ "image/png" rfl (by decide) rfl

/-- Claim C2: for every declared content-type not prefixed "image/", the
Analysis Client returns the fixed guidance string as a normal return value
and issues zero remote requests (and emits no error). -/
theorem c2_non_image_returns_guidance (remote : ChatRequest → Except String String)
    (file_bytes : List Nat) (mt : String) (h : startswith mt "image/" = false) :
    analyze_lease_document remote file_bytes (some mt) =
      { result := some guidance, requests := [], errors := [] } := by
  unfold analyze_lease_document
  rw [analyzeTry_non_image remote file_bytes mt h]

/-- Claim C2, witness. -/
theorem c2_non_image_returns_guidance_witness :
    analyze_lease_document (fun _ => Except.ok "r") [1, 2] (some "text/plain") =
      { result := some guidance, requests := [], errors := [] } :=
  c2_non_image_returns_guidance (fun _ => Except.ok "r") [1, 2] "text/plain" (by decide)

/-- Claim C3: for bytes with an "image/"-prefixed content-type exactly one
remote request is issued, and base64-decoding the base64 string embedded in
it (the one `buildRequest` inlines) gives back the original bytes. -/
theorem c3_one_request_base64_roundtrip (remote : ChatRequest → Except String String)
    (file_bytes : List Nat) (mt : String) (h : startswith mt "image/" = true)
    (hb : ∀ b ∈ file_bytes, b < 256) :
    (analyze_lease_document remote file_bytes (some mt)).requests =
      [buildRequest mt file_bytes] ∧
    b64decode (b64encode file_bytes) = some file_bytes := by
  refine ⟨?_, b64decode_b64encode file_bytes hb⟩
  unfold analyze_lease_document
  rw [analyzeTry_image remote file_bytes mt h]
  cases remote (buildRequest mt file_bytes) <;> rfl

/-- Claim C3, witness. -/
theorem c3_one_request_base64_roundtrip_witness :
    (analyze_lease_document (fun _ => Except.ok "r") [255, 0, 16] (some "image/png")).requests =
      [buildRequest "image/png" [255, 0, 16]] ∧
    b64decode (b64encode [255, 0, 16]) = some [255, 0, 16] :=
  c3_one_request_base64_roundtrip (fun _ => Except.ok "r") [255, 0, 16] "image/png"
    (by decide) (by decide)

/-- Claim C4: if the remote call raises, the exception is caught, a
user-visible error message is emitted, and the Analysis Client returns the
explicit no-result value `none`; the single request is not retried. -/
theorem c4_remote_error_caught_returns_none (remote : ChatRequest → Except String String)
    (file_bytes : List Nat) (mt : String) (e : String)
    (h : startswith mt "image/" = true)
    (hremote : remote (buildRequest mt file_bytes) = Except.error e) :
    analyze_lease_document remote file_bytes (some mt) =
      { result := none, requests := [buildRequest mt file_bytes],
        errors := ["An error occurred during analysis: " ++ e] } := by
  unfold analyze_lease_document
  rw [analyzeTry_image remote file_bytes mt h, hremote]

/-- Claim C4, witness. -/
theorem c4_remote_error_caught_returns_none_witness :
    analyze_lease_document (fun _ => Except.error "connection reset") [7] (some "image/jpeg") =
      { result := none, requests := [buildRequest "image/jpeg" [7]],
        errors := ["An error occurred during analysis: connection reset"] } :=
  c4_remote_error_caught_returns_none (fun _ => Except.error "connection reset") [7]
    "image/jpeg" "connection reset" (by decide) rfl

/-- Claim C5: normalization returns the original bytes and the declared
content-type unchanged for every input, and the preview component is
absent when raster decoding fails; no exception escapes (the decoder's
failure is an `Option`, the function is total). -/
theorem c5_normalizer_preserves_bytes_and_type {Img : Type}
    (decodeImage : List Nat → Option Img) (f : UploadedFile) :
    (process_uploaded_file decodeImage f).1 = f.data ∧
    (process_uploaded_file decodeImage f).2.1 = f.type ∧
    (decodeImage f.data = none → (process_uploaded_file decodeImage f).2.2 = none) :=
  ⟨rfl, rfl, fun h => h⟩

/-- Claim C5, witness (a non-image upload read from a mid-buffer position). -/
theorem c5_normalizer_preserves_bytes_and_type_witness :
    (process_uploaded_file (fun _ => (none : Option Unit))
        { data := [9, 250], type := some "text/plain", pos := 5 }).2.2 = none :=
  (c5_normalizer_preserves_bytes_and_type (fun _ => (none : Option Unit))
    { data := [9, 250], type := some "text/plain", pos := 5 }).2.2 rfl

/-- Claim C6: if the API credential is absent from the environment, startup
reports the fatal configuration error and halts; whatever the upload, the
decoder and the remote service, no request is ever issued. -/
theorem c6_missing_credential_halts {Img : Type} (env : String → Option String)
    (decodeImage : List Nat → Option Img)
    (remote : ChatRequest → Except String String) (uploaded_file : Option UploadedFile)
    (h : env "OPENAI_API_KEY" = none) :
    runProgram env decodeImage remote uploaded_file =
      { events :=
          [UIEvent.error "OpenAI API key not found. Please set the 'OPENAI_API_KEY' environment variable."],
        requests := [] } := by
  unfold runProgram startup
  rw [h]
  rfl

/-- Claim C6, witness: an upload with a working decoder and remote service
still yields zero requests when the key is missing. -/
theorem c6_missing_credential_halts_witness :
    runProgram (fun _ => none) (fun _ => some ()) (fun _ => Except.ok "r")
        (some { data := [1], type := some "image/png", pos := 0 }) =
      { events :=
          [UIEvent.error "OpenAI API key not found. Please set the 'OPENAI_API_KEY' environment variable."],
        requests := [] } :=
  c6_missing_credential_halts (fun _ => none) (fun _ => some ()) (fun _ => Except.ok "r")
    (some { data := [1], type := some "image/png", pos := 0 }) rfl

/-- Claim C7: for every image-typed input the image URL of the one request
equals "data:" ++ content_type ++ ";base64," ++ base64(bytes). -/
theorem c7_image_url_data_uri (remote : ChatRequest → Except String String)
    (file_bytes : List Nat) (mt : String) (h : startswith mt "image/" = true) :
    (analyze_lease_document remote file_bytes (some mt)).requests.map ChatRequest.imageUrl =
      ["data:" ++ mt ++ ";base64," ++ b64encode file_bytes] := by
  unfold analyze_lease_document
  rw [analyzeTry_image remote file_bytes mt h]
  cases remote (buildRequest mt file_bytes) <;> rfl

/-- Claim C7, witness: a PNG upload's request URL starts
"data:image/png;base64,". -/
theorem c7_image_url_data_uri_witness :
    (analyze_lease_document (fun _ => Except.ok "r") [137, 80, 78, 71]
        (some "image/png")).requests.map ChatRequest.imageUrl =
      ["data:image/png;base64,iVBORw=="] := by
  have h := c7_image_url_data_uri (fun _ => Except.ok "r") [137, 80, 78, 71] "image/png"
    (by decide)
  rw [h]
  decide

/-- Claim C8: every remote request built by the Analysis Client carries
`max_tokens = 2000`, whatever the input. -/
theorem c8_max_tokens_always_2000 (remote : ChatRequest → Except String String)
    (file_bytes : List Nat) (mime_type : Option String) :
    ((analyze_lease_document remote file_bytes mime_type).requests.all
      (fun r => r.max_tokens == 2000)) = true := by
  match mime_type with
  | none => rfl
  | some mt =>
      cases hmt : startswith mt "image/" with
      | false =>
          unfold analyze_lease_document
          rw [analyzeTry_non_image remote file_bytes mt hmt]
          rfl
      | true =>
          unfold analyze_lease_document
          rw [analyzeTry_image remote file_bytes mt hmt]
          cases remote (buildRequest mt file_bytes) <;> rfl

/-- Claim C9: `analyze_lease_document` is total at its public interface:
whatever the `try` body does — return normally, or raise (as it does for a
`None` content-type, or when the remote call raises) — the function
returns an outcome (a string or `none`), never propagating the
exception. -/
theorem c9_no_exception_escapes (remote : ChatRequest → Except String String)
    (file_bytes : List Nat) (mime_type : Option String) :
    ∀ reqs res, analyzeTry remote file_bytes mime_type = (reqs, res) →
      analyze_lease_document remote file_bytes mime_type =
        match res with
        | Except.ok r => { result := r, requests := reqs, errors := [] }
        | Except.error e =>
            { result := none, requests := reqs,
              errors := ["An error occurred during analysis: " ++ e] } := by
  intro reqs res h
  unfold analyze_lease_document
  rw [h]
  cases res <;> rfl

/-- Claim C9, witness: a `None` content-type raises inside the `try` block
and still yields the normal return `none` with a user-visible message. -/
theorem c9_no_exception_escapes_witness :
    analyze_lease_document (fun _ => Except.ok "r") [] none =
      { result := none, requests := [],
        errors :=
          ["An error occurred during analysis: AttributeError: NoneType object has no attribute startswith"] } :=
  c9_no_exception_escapes (fun _ => Except.ok "r") [] none []
    (Except.error "AttributeError: NoneType object has no attribute startswith") rfl

/-- Claim C10: `main` renders a result exactly when the Analysis Client's
return value is truthy: a nonempty string renders the success indicator and
the markdown body, while the empty string renders nothing — the same output
as the failure value `none`. -/
theorem c10_render_iff_truthy :
    (∀ s : String, s ≠ "" →
      render_result (some s) = [UIEvent.success "Analysis Complete", UIEvent.markdown s]) ∧
    render_result (some "") = render_result none ∧ render_result none = [] := by
  refine ⟨fun s hs => ?_, rfl, rfl⟩
  simp only [render_result]
  rw [if_neg hs]

/-- Claim C10, witness. -/
theorem c10_render_iff_truthy_witness :
    render_result (some "ok") = [UIEvent.success "Analysis Complete", UIEvent.markdown "ok"] :=
  c10_render_iff_truthy.1 "ok" (by decide)

end DocumentAnalysis
